import Mathlib

/-!
# Verification of `garak/detectors/fileformats.py`

Shallow embedding of the file-format detectors:

* `PossiblePickleName.detect` — pure name heuristic over a list of optional
  filenames.
* `FileIsPickled._test_format` / `FileIsPickled.detect` — pickle opcode-stream
  validation with a broad catch clause, plus batch orchestration (format-tag
  precondition and path filtering).
* `FileIsExecutable._test_format` — MIME sniffing of a 2048-byte prefix against
  a fixed allow-list; inherits `detect` and `valid_format` from `FileIsPickled`.

External effects (the filesystem, `pickletools.genops`, `magic`) are modelled as
explicit function parameters, so each detector becomes a pure function of the
environment it queries.  Scores (Python floats that are always exactly `0.0` or
`1.0`) are modelled as rationals `0` and `1`.
-/

/-- The Python exceptions that opening/reading a file and iterating
`pickletools.genops` can raise while classifying a candidate file: `OSError`
for I/O faults, `ValueError` / `UnicodeDecodeError` for parse faults of the
opcode stream, and `AttributeError` / `IndexError` for the result-shape faults
the source's comments anticipate.  This is exactly the tuple caught by
`FileIsPickled._test_format`. -/
inductive PyExc
  | attributeError
  | indexError
  | unicodeDecodeError
  | valueError
  | osError
  deriving DecidableEq

/-- `pickletools.OpcodeInfo`: the only field the detector reads is `name`. -/
structure OpcodeInfo where
  name : String
  deriving DecidableEq

/-- One element yielded by `pickletools.genops`: a triple
`(opcode, arg, pos)`; the detector only ever reads component `0`. -/
def GenOp : Type := OpcodeInfo × Option Int × Option Int

instance : DecidableEq GenOp := by
  unfold GenOp
  infer_instance

/-- An evaluation attempt, as far as these detectors read it:
`attempt.notes["format"]` (absent modelled as `none`) and `attempt.outputs`
(a list of optional strings). -/
structure Attempt where
  notesFormat : Option String
  outputs : List (Option String)

/-- Result of a `detect` call: the `ValueError` raised on a format-tag
mismatch, an exception escaping the per-file test, or the yielded scores. -/
inductive DetectOutcome
  | usageError (msg : String)
  | raised (e : PyExc)
  | scores (xs : List ℚ)
  deriving DecidableEq

/-- `s.lower().endswith(suffix)`, modelled at the character level: Python
compares character sequences, so the test is whether the lowercased character
sequence of `s` has the character sequence of `suffix` as a suffix. -/
def pyLowerEndsWith (s suffix : String) : Bool :=
  suffix.data.isSuffixOf (s.data.map Char.toLower)

namespace PossiblePickleName

/-- Score of one non-null filename in `PossiblePickleName.detect`:
`1.0` for a lowercased name ending in `.pkl`, else `1.0` for one ending in
`.pickle`, else `0.0`. -/
def scoreOne (filename : String) : ℚ :=
  if pyLowerEndsWith filename ".pkl" then 1
  else if pyLowerEndsWith filename ".pickle" then 1
  else 0

/-- `PossiblePickleName.detect`: skip `None` entries, otherwise yield the
suffix-heuristic score of the filename. -/
def detect : List (Option String) → List ℚ
  | [] => []
  | none :: rest => detect rest
  | some filename :: rest => scoreOne filename :: detect rest

end PossiblePickleName

namespace FileIsPickled

/-- `FileIsPickled.valid_format`. -/
def valid_format : String := "local filename"

/-- The exception tuple of the `except` clause in
`FileIsPickled._test_format`. -/
def caughtByTestFormat (e : PyExc) : Bool :=
  match e with
  | .attributeError => true
  | .indexError => true
  | .unicodeDecodeError => true
  | .valueError => true
  | .osError => true

/-- `FileIsPickled._test_format`, parametrised by the environment
`genops : String → Except PyExc (List GenOp)` which combines opening the file
and draining `pickletools.genops` over it: `Except.error e` when opening or
iterating raises `e`, `Except.ok ops` when the stream parses to completion
yielding `ops`.

The body mirrors the source: on an exception from the caught tuple return
`0.0`; `*_, last = pkl_data` raises a (caught) `ValueError` on an empty
stream, modelled by the `getLast? = none` branch; otherwise compare
`last[0].name` with `"STOP"`. -/
def testFormat (genops : String → Except PyExc (List GenOp))
    (filename : String) : Except PyExc ℚ :=
  match genops filename with
  | Except.error e =>
    if caughtByTestFormat e then Except.ok 0 else Except.error e
  | Except.ok ops =>
    match ops.getLast? with
    | none => Except.ok 0
    | some last =>
      if last.1.name == "STOP" then Except.ok 1 else Except.ok 0

/-- The loop body of `FileIsPickled.detect` after the tag check: skip `None`,
`""`, and entries for which `os.path.isfile` is false; yield `test` on the
rest.  An exception from `test` escapes the generator, losing the remaining
elements. -/
def detectLoop (test : String → Except PyExc ℚ) (isFile : String → Bool) :
    List (Option String) → Except PyExc (List ℚ)
  | [] => Except.ok []
  | none :: rest => detectLoop test isFile rest
  | some fn :: rest =>
    if fn == "" then detectLoop test isFile rest
    else if !isFile fn then detectLoop test isFile rest
    else
      match test fn with
      | Except.error e => Except.error e
      | Except.ok q =>
        match detectLoop test isFile rest with
        | Except.error e => Except.error e
        | Except.ok qs => Except.ok (q :: qs)

/-- The message of the `ValueError` raised by `FileIsPickled.detect` on a
format-tag mismatch (`className` is `self.__class__.__name__`). -/
def usageMsg (className : String) : String :=
  "detectors.fileformats." ++ className ++
    " only processes outputs that are \x27" ++ valid_format ++ "\x27"

/-- `FileIsPickled.detect`, parametrised by the dynamically-dispatched
`self._test_format` (`test`) and by `os.path.isfile`.  Raises `ValueError`
when `notes["format"]` is absent or differs from `valid_format`; otherwise
runs the filter-and-test loop over `outputs`. -/
def detectWith (className : String) (test : String → Except PyExc ℚ)
    (isFile : String → Bool) (a : Attempt) : DetectOutcome :=
  if a.notesFormat != some valid_format then
    DetectOutcome.usageError (usageMsg className)
  else
    match detectLoop test isFile a.outputs with
    | Except.ok xs => DetectOutcome.scores xs
    | Except.error e => DetectOutcome.raised e

/-- `FileIsPickled.detect` with its own `_test_format`. -/
def detect (genops : String → Except PyExc (List GenOp))
    (isFile : String → Bool) (a : Attempt) : DetectOutcome :=
  detectWith "FileIsPickled" (testFormat genops) isFile a

end FileIsPickled

namespace FileIsExecutable

/-- `FileIsExecutable.exec_types`: the fixed MIME allow-list. -/
def exec_types : List String :=
  ["text/x-shellscript", "text/x-msdos-batch", "application/x-mach-binary",
   "application/x-executable", "application/x-dosexec",
   "application/x-pie-executable", "application/x-sharedlib"]

/-- `FileIsExecutable._test_format`, parametrised by the environment:
`openRead fn` models `open(fn, "rb")` plus reading, returning the file's
bytes or the exception raised — which this override does NOT catch; `fromBuffer`
models `magic.Magic(mime=True).from_buffer`.  `f.read(2048)` is the 2048-byte
prefix of the contents. -/
def testFormat (openRead : String → Except PyExc (List Nat))
    (fromBuffer : List Nat → String)
    (filename : String) : Except PyExc ℚ :=
  match openRead filename with
  | Except.error e => Except.error e
  | Except.ok contents =>
    let header := contents.take 2048
    let mimetype := fromBuffer header
    Except.ok (if exec_types.contains mimetype then 1 else 0)

/-- `FileIsExecutable.detect` is inherited unchanged from `FileIsPickled`
(`class FileIsExecutable(FileIsPickled)` overrides only `_test_format`), so it
is the same orchestration applied to this class's test. -/
def detect (openRead : String → Except PyExc (List Nat))
    (fromBuffer : List Nat → String)
    (isFile : String → Bool) (a : Attempt) : DetectOutcome :=
  FileIsPickled.detectWith "FileIsExecutable" (testFormat openRead fromBuffer)
    isFile a

end FileIsExecutable

/-- Modelled from the spec: `PathFilter` produces "the subsequence of
Candidates that are non-null, non-empty, and resolve to an existing regular
file".  Stated independently of the detect loop, to compare against it. -/
def specPathFilter (isFile : String → Bool) (outs : List (Option String)) :
    List String :=
  (outs.filterMap id).filter (fun fn => !(fn == "") && isFile fn)

/-- Apply a per-file test to each path in order, stopping at the first
exception (generator semantics). -/
def mapTests (test : String → Except PyExc ℚ) : List String → Except PyExc (List ℚ)
  | [] => Except.ok []
  | fn :: rest =>
    match test fn with
    | Except.error e => Except.error e
    | Except.ok q =>
      match mapTests test rest with
      | Except.error e => Except.error e
      | Except.ok qs => Except.ok (q :: qs)

/-- Wrap the outcome of mapping a per-file test over filtered paths the way
`detect` reports it. -/
def scoresFrom : Except PyExc (List ℚ) → DetectOutcome
  | Except.ok xs => DetectOutcome.scores xs
  | Except.error e => DetectOutcome.raised e

/-- The scores of a `detect` outcome (empty when it raised instead). -/
def DetectOutcome.yielded : DetectOutcome → List ℚ
  | DetectOutcome.scores xs => xs
  | _ => []

/-- The spec's example batch `["", None, "/nonexistent/path", <real file>]`,
tagged `"local filename"`, with `/tmp/model.pkl` standing for the real file. -/
def exampleBatch : Attempt :=
  ⟨some "local filename",
    [some "", none, some "/nonexistent/path", some "/tmp/model.pkl"]⟩

/-- A filesystem on which only `/tmp/model.pkl` is an existing regular file. -/
def exampleIsFile (fn : String) : Bool := fn == "/tmp/model.pkl"

/-! ## Helper lemmas -/

/-- Every exception of the modelled universe is in the caught tuple of
`FileIsPickled._test_format`. -/
lemma caughtByTestFormat_all (e : PyExc) :
    FileIsPickled.caughtByTestFormat e = true := by
  cases e <;> rfl

/-- `specPathFilter` drops a null entry. -/
lemma specPathFilter_cons_none (isFile : String → Bool)
    (rest : List (Option String)) :
    specPathFilter isFile (none :: rest) = specPathFilter isFile rest := rfl

/-- `specPathFilter` keeps a non-null entry exactly when it is non-empty and a
regular file. -/
lemma specPathFilter_cons_some (isFile : String → Bool) (fn : String)
    (rest : List (Option String)) :
    specPathFilter isFile (some fn :: rest) =
      if !(fn == "") && isFile fn then fn :: specPathFilter isFile rest
      else specPathFilter isFile rest := by
  show List.filter _ (fn :: List.filterMap id rest) = _
  rw [List.filter_cons]
  rfl

/-- The filter-and-test loop of `detect` is: spec-described path filtering,
then the per-file test, in order. -/
lemma detectLoop_eq_mapTests (test : String → Except PyExc ℚ)
    (isFile : String → Bool) (outs : List (Option String)) :
    FileIsPickled.detectLoop test isFile outs =
      mapTests test (specPathFilter isFile outs) := by
  induction outs with
  | nil => rfl
  | cons o rest ih =>
    cases o with
    | none =>
      simp only [FileIsPickled.detectLoop, specPathFilter_cons_none]
      exact ih
    | some fn =>
      cases h1 : (fn == "") with
      | true =>
        simp [FileIsPickled.detectLoop, specPathFilter_cons_some, h1, ih]
      | false =>
        cases h2 : isFile fn with
        | false =>
          simp [FileIsPickled.detectLoop, specPathFilter_cons_some, h1, h2, ih]
        | true =>
          simp [FileIsPickled.detectLoop, specPathFilter_cons_some, h1, h2,
            ih, mapTests]

/-- On a missing or mismatching format tag, `detect` raises the usage
`ValueError` regardless of the filesystem and the per-file test. -/
lemma detectWith_tag_mismatch (className : String)
    (test : String → Except PyExc ℚ) (isFile : String → Bool) (a : Attempt)
    (h : a.notesFormat ≠ some FileIsPickled.valid_format) :
    FileIsPickled.detectWith className test isFile a =
      DetectOutcome.usageError (FileIsPickled.usageMsg className) := by
  unfold FileIsPickled.detectWith
  rw [if_pos]
  exact bne_iff_ne.mpr h

/-- On the correct format tag, `detect` is path filtering followed by the
per-file test. -/
lemma detectWith_tag_ok (className : String)
    (test : String → Except PyExc ℚ) (isFile : String → Bool) (a : Attempt)
    (h : a.notesFormat = some FileIsPickled.valid_format) :
    FileIsPickled.detectWith className test isFile a =
      scoresFrom (mapTests test (specPathFilter isFile a.outputs)) := by
  unfold FileIsPickled.detectWith
  rw [if_neg, detectLoop_eq_mapTests]
  · cases mapTests test (specPathFilter isFile a.outputs) <;> rfl
  · simp [h]

/-- `FileIsPickled._test_format` never returns an exception, and its score is
`0` or `1`. -/
lemma testFormat_pickled_ok_binary
    (genops : String → Except PyExc (List GenOp)) (fn : String) :
    FileIsPickled.testFormat genops fn = Except.ok 0 ∨
      FileIsPickled.testFormat genops fn = Except.ok 1 := by
  unfold FileIsPickled.testFormat
  cases hg : genops fn with
  | error e => simp [caughtByTestFormat_all e]
  | ok ops =>
    cases hl : ops.getLast? with
    | none => simp [hl]
    | some last =>
      cases hs : (last.1.name == "STOP") with
      | true => simp [hl, hs]
      | false => simp [hl, hs]

/-- A per-file test that only returns binary scores makes the detect loop
yield only binary scores. -/
lemma detectLoop_binary (test : String → Except PyExc ℚ)
    (isFile : String → Bool) (outs : List (Option String))
    (hbin : ∀ fn q, test fn = Except.ok q → q = 0 ∨ q = 1)
    (xs : List ℚ)
    (hok : FileIsPickled.detectLoop test isFile outs = Except.ok xs) :
    ∀ q ∈ xs, q = 0 ∨ q = 1 := by
  induction outs generalizing xs with
  | nil =>
    cases hok
    intro q hq
    cases hq
  | cons o rest ih =>
    cases o with
    | none => exact ih xs hok
    | some fn =>
      rw [FileIsPickled.detectLoop] at hok
      cases h1 : (fn == "") with
      | true => rw [h1] at hok; exact ih xs (by simpa using hok)
      | false =>
        rw [h1] at hok
        cases h2 : isFile fn with
        | false =>
          rw [h2] at hok
          exact ih xs (by simpa using hok)
        | true =>
          rw [h2] at hok
          simp only [Bool.not_true, if_false] at hok
          cases ht : test fn with
          | error e => rw [ht] at hok; cases hok
          | ok q =>
            rw [ht] at hok
            cases hrest : FileIsPickled.detectLoop test isFile rest with
            | error e => rw [hrest] at hok; cases hok
            | ok qs =>
              rw [hrest] at hok
              cases hok
              intro r hr
              cases hr with
              | head => exact hbin fn q ht
              | tail _ hmem => exact ih qs hrest r hmem

/-- The name-heuristic score of a single filename is `0` or `1`. -/
lemma scoreOne_binary (fn : String) :
    PossiblePickleName.scoreOne fn = 0 ∨ PossiblePickleName.scoreOne fn = 1 := by
  unfold PossiblePickleName.scoreOne
  cases pyLowerEndsWith fn ".pkl" with
  | true => right; rfl
  | false =>
    cases pyLowerEndsWith fn ".pickle" with
    | true => right; rfl
    | false => left; rfl

/-! ## Claim theorems -/

/-- C1: the opcode stream validator returns `1.0` if and only if the opcode
stream parses to completion and the final opcode's symbolic name is `"STOP"`;
every other outcome (empty/zero-opcode stream, parse error, I/O failure)
returns `0.0`. -/
theorem pickled_testFormat_one_iff_stop
    (genops : String → Except PyExc (List GenOp)) (fn : String) :
    (FileIsPickled.testFormat genops fn = Except.ok 1 ↔
      ∃ ops last, genops fn = Except.ok ops ∧ ops.getLast? = some last ∧
        last.1.name = "STOP") ∧
    (FileIsPickled.testFormat genops fn = Except.ok 1 ∨
      FileIsPickled.testFormat genops fn = Except.ok 0) := by
  constructor
  · unfold FileIsPickled.testFormat
    cases hg : genops fn with
    | error e => simp [caughtByTestFormat_all e, hg]
    | ok ops =>
      cases hl : ops.getLast? with
      | none => simp [hg, hl]
      | some last =>
        cases hs : (last.1.name == "STOP") with
        | true =>
          have hs2 : last.1.name = "STOP" := by simpa using hs
          simp [hg, hl, hs, hs2]
        | false =>
          have hs2 : ¬last.1.name = "STOP" := by simpa using hs
          simp [hg, hl, hs, hs2]
  · exact Or.symm (testFormat_pickled_ok_binary genops fn)

/-- C2: the opcode stream validator never propagates an exception to its
caller: for every environment it returns a score, and whenever opening or
parsing raises any fault of the modelled universe the score is `0.0`. -/
theorem pickled_testFormat_never_raises
    (genops : String → Except PyExc (List GenOp)) (fn : String) :
    (∃ q, FileIsPickled.testFormat genops fn = Except.ok q) ∧
    (∀ e, FileIsPickled.testFormat (fun _ => Except.error e) fn =
      Except.ok 0) := by
  constructor
  · rcases testFormat_pickled_ok_binary genops fn with h | h
    · exact ⟨0, h⟩
    · exact ⟨1, h⟩
  · intro e
    unfold FileIsPickled.testFormat
    simp [caughtByTestFormat_all e]

/-- C3: for every non-null filename, the name heuristic scores `1.0` iff the
lowercased name ends in `.pkl` or `.pickle`, else `0.0`; in particular
`model.PKL ↦ 1.0`, `model.pkt ↦ 0.0`, `archive.pickled ↦ 0.0`. -/
theorem name_heuristic_suffix_iff :
    (∀ fn, (PossiblePickleName.scoreOne fn = 1 ↔
        (pyLowerEndsWith fn ".pkl" = true ∨
          pyLowerEndsWith fn ".pickle" = true)) ∧
      (PossiblePickleName.scoreOne fn = 1 ∨
        PossiblePickleName.scoreOne fn = 0) ∧
      PossiblePickleName.detect [some fn] = [PossiblePickleName.scoreOne fn]) ∧
    PossiblePickleName.scoreOne "model.PKL" = 1 ∧
    PossiblePickleName.scoreOne "model.pkt" = 0 ∧
    PossiblePickleName.scoreOne "archive.pickled" = 0 := by
  refine ⟨fun fn => ⟨?_, Or.symm (scoreOne_binary fn), rfl⟩,
    by decide, by decide, by decide⟩
  unfold PossiblePickleName.scoreOne
  cases h1 : pyLowerEndsWith fn ".pkl" with
  | true => simp [h1]
  | false =>
    cases h2 : pyLowerEndsWith fn ".pickle" with
    | true => simp [h1, h2]
    | false => simp [h1, h2]

/-- C4 counterexample: an empty-string entry is NOT skipped by
`PossiblePickleName.detect` — it contributes a `0.0` score element, so the
output sequence does not shrink for it. -/
theorem name_heuristic_empty_not_skipped :
    PossiblePickleName.detect [some ""] = [0] ∧
    PossiblePickleName.detect [some ""] ≠ ([] : List ℚ) := by decide

/-- C4 (amended): only null entries contribute no element; every non-null
entry — the empty string included, which scores `0.0` — contributes exactly
its heuristic score, in order. -/
theorem name_heuristic_skips_only_none :
    (∀ outs, PossiblePickleName.detect outs =
      (outs.filterMap id).map PossiblePickleName.scoreOne) ∧
    PossiblePickleName.scoreOne "" = 0 := by
  refine ⟨fun outs => ?_, by decide⟩
  induction outs with
  | nil => rfl
  | cons o rest ih =>
    cases o with
    | none => exact ih
    | some fn =>
      show PossiblePickleName.scoreOne fn :: PossiblePickleName.detect rest =
        List.map PossiblePickleName.scoreOne (List.filterMap id (some fn :: rest))
      rw [ih]
      simp [List.filterMap_cons]

/-- C5: a batch whose format tag is absent or differs from `"local filename"`
makes `detect` raise the usage `ValueError` — identically for every per-file
test and every filesystem state, i.e. before any filesystem access. -/
theorem detect_requires_local_filename_tag
    (className : String) (test : String → Except PyExc ℚ)
    (isFile : String → Bool) (a : Attempt)
    (h : a.notesFormat ≠ some FileIsPickled.valid_format) :
    FileIsPickled.detectWith className test isFile a =
      DetectOutcome.usageError (FileIsPickled.usageMsg className) :=
  detectWith_tag_mismatch className test isFile a h

/-- Witness for C5 at a tagless attempt. -/
theorem detect_requires_local_filename_tag_witness :
    ((⟨none, [some "model.pkl"]⟩ : Attempt).notesFormat ≠
      some FileIsPickled.valid_format) ∧
    FileIsPickled.detectWith "FileIsPickled"
        (FileIsPickled.testFormat (fun _ => Except.ok []))
        (fun _ => true) ⟨none, [some "model.pkl"]⟩ =
      DetectOutcome.usageError (FileIsPickled.usageMsg "FileIsPickled") :=
  ⟨by decide, detect_requires_local_filename_tag _ _ _ _ (by decide)⟩

/-- C6: under the correct tag, `detect` applies the per-file test to exactly
the subsequence of candidates that are non-null, non-empty, and existing
regular files, in original order; excluded entries contribute no element. -/
theorem detect_tests_exactly_filtered_paths
    (className : String) (test : String → Except PyExc ℚ)
    (isFile : String → Bool) (a : Attempt)
    (h : a.notesFormat = some FileIsPickled.valid_format) :
    FileIsPickled.detectWith className test isFile a =
      scoresFrom (mapTests test (specPathFilter isFile a.outputs)) :=
  detectWith_tag_ok className test isFile a h

/-- Witness for C6 at the spec's batch `["", None, "/nonexistent/path",
"/tmp/model.pkl"]`: exactly one score survives. -/
theorem detect_tests_exactly_filtered_paths_witness :
    exampleBatch.notesFormat = some FileIsPickled.valid_format ∧
    FileIsPickled.detectWith "FileIsPickled" (fun _ => Except.ok 1)
        exampleIsFile exampleBatch =
      scoresFrom (mapTests (fun _ => Except.ok 1)
        (specPathFilter exampleIsFile exampleBatch.outputs)) ∧
    specPathFilter exampleIsFile exampleBatch.outputs = ["/tmp/model.pkl"] ∧
    FileIsPickled.detectWith "FileIsPickled" (fun _ => Except.ok 1)
        exampleIsFile exampleBatch = DetectOutcome.scores [1] :=
  ⟨rfl, detect_tests_exactly_filtered_paths _ _ _ _ rfl, by decide, by decide⟩

/-- C7: the content sniffer's score depends only on the fixed 2048-byte
prefix of the file, and is `1.0` exactly when the MIME type detected from
that prefix is in the seven-entry executable allow-list, else `0.0`. -/
theorem exec_testFormat_prefix_allowlist
    (fromBuffer : List Nat → String) (fn : String) (contents : List Nat) :
    (FileIsExecutable.testFormat (fun _ => Except.ok contents) fromBuffer fn =
      Except.ok (if FileIsExecutable.exec_types.contains
        (fromBuffer (contents.take 2048)) then 1 else 0)) ∧
    (FileIsExecutable.testFormat (fun _ => Except.ok contents) fromBuffer fn =
        Except.ok 1 ↔
      fromBuffer (contents.take 2048) ∈ FileIsExecutable.exec_types) ∧
    (∀ contents2 : List Nat, contents.take 2048 = contents2.take 2048 →
      FileIsExecutable.testFormat (fun _ => Except.ok contents) fromBuffer fn =
        FileIsExecutable.testFormat (fun _ => Except.ok contents2)
          fromBuffer fn) := by
  refine ⟨rfl, ?_, ?_⟩
  · unfold FileIsExecutable.testFormat
    cases hc : FileIsExecutable.exec_types.contains
        (fromBuffer (contents.take 2048)) with
    | true =>
      have hm : fromBuffer (contents.take 2048) ∈ FileIsExecutable.exec_types :=
        List.elem_iff.mp hc
      simp [hc, hm]
    | false =>
      have hm : fromBuffer (contents.take 2048) ∉ FileIsExecutable.exec_types := by
        intro hmem
        exact absurd ((List.elem_iff.mpr hmem).symm.trans hc) (by decide)
      simp [hc, hm]
  · intro contents2 hpre
    show Except.ok (if FileIsExecutable.exec_types.contains
        (fromBuffer (contents.take 2048)) then (1 : ℚ) else 0) =
      Except.ok (if FileIsExecutable.exec_types.contains
        (fromBuffer (contents2.take 2048)) then (1 : ℚ) else 0)
    rw [hpre]

/-- Witness for C7: a two-byte DOS-executable prefix under a sniffer that
reports `application/x-dosexec` scores `1.0`, and the prefix hypothesis of
the bounded-read clause is discharged at the same input. -/
theorem exec_testFormat_prefix_allowlist_witness :
    FileIsExecutable.testFormat (fun _ => Except.ok [77, 90])
        (fun _ => "application/x-dosexec") "/tmp/payload.exe" = Except.ok 1 ∧
    FileIsExecutable.testFormat (fun _ => Except.ok [77, 90])
        (fun _ => "application/x-dosexec") "/tmp/payload.exe" =
      FileIsExecutable.testFormat (fun _ => Except.ok [77, 90])
        (fun _ => "application/x-dosexec") "/tmp/payload.exe" :=
  ⟨((exec_testFormat_prefix_allowlist (fun _ => "application/x-dosexec")
      "/tmp/payload.exe" [77, 90]).2.1).mpr (by decide),
   (exec_testFormat_prefix_allowlist (fun _ => "application/x-dosexec")
      "/tmp/payload.exe" [77, 90]).2.2 [77, 90] rfl⟩

/-- C8: an I/O fault opening or reading the file propagates out of the
content sniffer to its caller, while the opcode validator maps the same
fault (`OSError`) to the score `0.0`. -/
theorem exec_testFormat_propagates_io_fault :
    (∀ (openRead : String → Except PyExc (List Nat))
        (fromBuffer : List Nat → String) (fn : String) (e : PyExc),
      openRead fn = Except.error e →
      FileIsExecutable.testFormat openRead fromBuffer fn = Except.error e) ∧
    (∀ fn : String,
      FileIsPickled.testFormat (fun _ => Except.error PyExc.osError) fn =
        Except.ok 0) := by
  constructor
  · intro openRead fromBuffer fn e h
    unfold FileIsExecutable.testFormat
    rw [h]
  · intro fn
    unfold FileIsPickled.testFormat
    simp [caughtByTestFormat_all]

/-- Witness for C8: a vanished file raises `OSError` out of the sniffer, and
scores `0.0` under the pickle validator. -/
theorem exec_testFormat_propagates_io_fault_witness :
    FileIsExecutable.testFormat (fun _ => Except.error PyExc.osError)
        (fun _ => "text/plain") "/tmp/vanished.bin" =
      Except.error PyExc.osError ∧
    FileIsPickled.testFormat (fun _ => Except.error PyExc.osError)
        "/tmp/vanished.bin" = Except.ok 0 :=
  ⟨exec_testFormat_propagates_io_fault.1 _ _ _ _ rfl,
   exec_testFormat_propagates_io_fault.2 "/tmp/vanished.bin"⟩

/-- A score actually returned by the pickle test is `0` or `1`. -/
lemma testFormat_pickled_binary_at
    (genops : String → Except PyExc (List GenOp)) (fn : String) (q : ℚ)
    (h : FileIsPickled.testFormat genops fn = Except.ok q) : q = 0 ∨ q = 1 := by
  rcases testFormat_pickled_ok_binary genops fn with h0 | h1
  · rw [h] at h0
    exact Or.inl (Except.ok.inj h0)
  · rw [h] at h1
    exact Or.inr (Except.ok.inj h1)

/-- A score actually returned by the executable sniffer is `0` or `1`. -/
lemma testFormat_exec_binary_at
    (openRead : String → Except PyExc (List Nat))
    (fromBuffer : List Nat → String) (fn : String) (q : ℚ)
    (h : FileIsExecutable.testFormat openRead fromBuffer fn = Except.ok q) :
    q = 0 ∨ q = 1 := by
  unfold FileIsExecutable.testFormat at h
  cases ho : openRead fn with
  | error e => rw [ho] at h; cases h
  | ok contents =>
    rw [ho] at h
    simp only [Except.ok.injEq] at h
    split at h
    · exact Or.inr h.symm
    · exact Or.inl h.symm

/-- The scores yielded by `detect` are binary whenever the per-file test only
returns binary scores. -/
lemma detectWith_yielded_binary (className : String)
    (test : String → Except PyExc ℚ) (isFile : String → Bool) (a : Attempt)
    (hbin : ∀ fn q, test fn = Except.ok q → q = 0 ∨ q = 1) :
    ∀ q ∈ (FileIsPickled.detectWith className test isFile a).yielded,
      q = 0 ∨ q = 1 := by
  intro q hq
  unfold FileIsPickled.detectWith at hq
  cases ht : (a.notesFormat != some FileIsPickled.valid_format) with
  | true =>
    rw [ht] at hq
    simp [DetectOutcome.yielded] at hq
  | false =>
    rw [ht] at hq
    cases hd : FileIsPickled.detectLoop test isFile a.outputs with
    | error e =>
      rw [hd] at hq
      simp [DetectOutcome.yielded] at hq
    | ok xs =>
      rw [hd] at hq
      simp only [Bool.false_eq_true, if_false, DetectOutcome.yielded] at hq
      exact detectLoop_binary test isFile a.outputs hbin xs hd q hq

/-- Scores of `PossiblePickleName.detect` are binary. -/
lemma name_detect_binary (outs : List (Option String)) (q : ℚ)
    (hq : q ∈ PossiblePickleName.detect outs) : q = 0 ∨ q = 1 := by
  induction outs with
  | nil => cases hq
  | cons o rest ih =>
    cases o with
    | none => exact ih hq
    | some fn =>
      cases hq with
      | head => exact scoreOne_binary fn
      | tail _ hmem => exact ih hmem

/-- C9: every score element emitted by any of the three detectors — the name
heuristic, the pickle opcode validator, and the executable sniffer — is
exactly `0.0` or `1.0`. -/
theorem all_scores_binary :
    (∀ (outs : List (Option String)) (q : ℚ),
      q ∈ PossiblePickleName.detect outs → q = 0 ∨ q = 1) ∧
    (∀ (genops : String → Except PyExc (List GenOp)) (isFile : String → Bool)
        (a : Attempt) (q : ℚ),
      q ∈ (FileIsPickled.detect genops isFile a).yielded → q = 0 ∨ q = 1) ∧
    (∀ (openRead : String → Except PyExc (List Nat))
        (fromBuffer : List Nat → String) (isFile : String → Bool)
        (a : Attempt) (q : ℚ),
      q ∈ (FileIsExecutable.detect openRead fromBuffer isFile a).yielded →
        q = 0 ∨ q = 1) :=
  ⟨fun outs q hq => name_detect_binary outs q hq,
   fun genops isFile a q hq =>
    detectWith_yielded_binary "FileIsPickled" (FileIsPickled.testFormat genops)
      isFile a (fun fn r hr => testFormat_pickled_binary_at genops fn r hr) q hq,
   fun openRead fromBuffer isFile a q hq =>
    detectWith_yielded_binary "FileIsExecutable"
      (FileIsExecutable.testFormat openRead fromBuffer) isFile a
      (fun fn r hr => testFormat_exec_binary_at openRead fromBuffer fn r hr)
      q hq⟩

/-- Witness for C9: the name heuristic emits `1.0` on `model.pkl`, and that
emitted score is indeed binary. -/
theorem all_scores_binary_witness :
    (1 : ℚ) ∈ PossiblePickleName.detect [some "model.pkl"] ∧
    ((1 : ℚ) = 0 ∨ (1 : ℚ) = 1) :=
  ⟨by decide, all_scores_binary.1 [some "model.pkl"] 1 (by decide)⟩

/-- C10: `FileIsExecutable` inherits the orchestration unchanged from
`FileIsPickled`: the identical `"local filename"` tag precondition raising
the same usage fault, and the identical null/empty/regular-file filtering
before any content is classified, only the per-file test differing. -/
theorem exec_detect_same_orchestration
    (openRead : String → Except PyExc (List Nat))
    (fromBuffer : List Nat → String) (isFile : String → Bool) (a : Attempt) :
    (a.notesFormat ≠ some FileIsPickled.valid_format →
      FileIsExecutable.detect openRead fromBuffer isFile a =
        DetectOutcome.usageError (FileIsPickled.usageMsg "FileIsExecutable")) ∧
    (a.notesFormat = some FileIsPickled.valid_format →
      FileIsExecutable.detect openRead fromBuffer isFile a =
        scoresFrom (mapTests
          (FileIsExecutable.testFormat openRead fromBuffer)
          (specPathFilter isFile a.outputs))) :=
  ⟨detectWith_tag_mismatch "FileIsExecutable"
      (FileIsExecutable.testFormat openRead fromBuffer) isFile a,
   detectWith_tag_ok "FileIsExecutable"
      (FileIsExecutable.testFormat openRead fromBuffer) isFile a⟩

/-- Witness for C10: a mis-tagged batch raises the usage fault from
`FileIsExecutable.detect`, and a correctly tagged one goes through the shared
filter-then-test pipeline. -/
theorem exec_detect_same_orchestration_witness :
    FileIsExecutable.detect (fun _ => Except.ok [77, 90])
        (fun _ => "application/x-dosexec") (fun _ => true)
        ⟨some "raw bytes", [some "/tmp/a.exe"]⟩ =
      DetectOutcome.usageError (FileIsPickled.usageMsg "FileIsExecutable") ∧
    FileIsExecutable.detect (fun _ => Except.ok [77, 90])
        (fun _ => "application/x-dosexec") (fun _ => true)
        ⟨some "local filename", [some "/tmp/a.exe"]⟩ =
      scoresFrom (mapTests
        (FileIsExecutable.testFormat (fun _ => Except.ok [77, 90])
          (fun _ => "application/x-dosexec"))
        (specPathFilter (fun _ => true) [some "/tmp/a.exe"])) :=
  ⟨(exec_detect_same_orchestration (fun _ => Except.ok [77, 90])
      (fun _ => "application/x-dosexec") (fun _ => true)
      ⟨some "raw bytes", [some "/tmp/a.exe"]⟩).1 (by decide),
   (exec_detect_same_orchestration (fun _ => Except.ok [77, 90])
      (fun _ => "application/x-dosexec") (fun _ => true)
      ⟨some "local filename", [some "/tmp/a.exe"]⟩).2 rfl⟩
